import Mathlib

/-!
Shallow embedding of the School-Hub server (src/server/routes.ts,
src/shared/schema.ts, and the alternate route revision in
src/unnamed/part_007) together with proofs about its route handlers and
MongoStorage operations.  Persistence collections are modelled as lists of
records; Mongo document-id generation is modelled by a counter; BSON dates
are modelled by a (year, month, day) triple ordered lexicographically,
mirroring chronological Date comparison.
-/

namespace SchoolHub

/-- Roles, as in the UserRole enum of src/shared/schema.ts. -/
inductive Role where
  | admin
  | teacher
  | student
  | parent
deriving DecidableEq

/-- Attendance status enum (Present | Absent | Late). -/
inductive AttendanceStatus where
  | Present
  | Absent
  | Late
deriving DecidableEq

/-- Fee status enum (Pending | Cleared). -/
inductive FeeStatus where
  | Pending
  | Cleared
deriving DecidableEq

/-- A calendar date, standing in for a JS Date value.  `month` follows the
JS convention of `Date.getMonth` (0-based); `day` is the day of month. -/
structure DateT where
  year : Nat
  month : Nat
  day : Nat
deriving DecidableEq

/-- Chronological comparison of dates (lexicographic on year, month, day),
as BSON Date values compare in a Mongo query. -/
def DateT.leb (a b : DateT) : Bool :=
  (a.year < b.year) ||
    (a.year = b.year &&
      ((a.month < b.month) || (a.month = b.month && a.day ≤ b.day)))

/-- Propositional form of `DateT.leb`. -/
def DateT.le (a b : DateT) : Prop :=
  DateT.leb a b = true

instance (a b : DateT) : Decidable (DateT.le a b) := by
  unfold DateT.le
  infer_instance

/-- `new Date(now.getFullYear(), now.getMonth(), 1)` from
MongoStorage.getMonthlyRevenue (schema.ts line 673). -/
def startOfMonth (now : DateT) : DateT :=
  { year := now.year, month := now.month, day := 1 }

/-- A stored user document (schema.ts UserSchema / docToUser). -/
structure User where
  id : String
  username : String
  password : String
  role : Role
  name : String
  email : String
  contact : Option String
  profilePicture : Option String
  createdAt : DateT
deriving DecidableEq

/-- A user as it appears in API responses: every field of `User` except
the stored password. -/
structure PublicUser where
  id : String
  username : String
  role : Role
  name : String
  email : String
  contact : Option String
  profilePicture : Option String
  createdAt : DateT
deriving DecidableEq

/-- The `const (\x7b password, ...userWithoutPassword \x7d) = user` destructuring
used by the handlers in routes.ts. -/
def stripPassword (u : User) : PublicUser :=
  { id := u.id, username := u.username, role := u.role, name := u.name,
    email := u.email, contact := u.contact, profilePicture := u.profilePicture,
    createdAt := u.createdAt }

/-- The payload of the signed JWT: `jwt.sign(\x7b id, role, email \x7d, secret)`.
With the fixed process secret, the token is a function of this payload. -/
structure Token where
  id : String
  role : Role
  email : String
deriving DecidableEq

/-- Token issued for a user at login/registration (routes.ts lines 109-113,
153-157). -/
def mkToken (u : User) : Token :=
  { id := u.id, role := u.role, email := u.email }

/-- A registration request body after insertUserSchema validation. -/
structure InsertUser where
  username : String
  password : String
  role : Role
  name : String
  email : String
  contact : Option String
  profilePicture : Option String
deriving DecidableEq

/-- The users collection plus the id counter modelling Mongo object-id
generation. -/
structure UserStore where
  users : List User
  nextId : Nat
deriving DecidableEq

/-- MongoStorage.getUserByUsername: `UserModel.findOne(\x7b username \x7d)`. -/
def getUserByUsername (users : List User) (username : String) : Option User :=
  users.find? (fun u => u.username == username)

/-- MongoStorage.getUserByEmail: `UserModel.findOne(\x7b email \x7d)`. -/
def getUserByEmail (users : List User) (email : String) : Option User :=
  users.find? (fun u => u.email == email)

/-- MongoStorage.getUser: `UserModel.findById(id)`. -/
def getUser (users : List User) (id : String) : Option User :=
  users.find? (fun u => u.id == id)

/-- MongoStorage.getUsersByRole: `UserModel.find(\x7b role \x7d)`. -/
def getUsersByRole (users : List User) (role : Role) : List User :=
  users.filter (fun u => u.role == role)

/-- MongoStorage.createUser: hash the password (`bcrypt.hash`, abstracted as
the `hash` parameter), insert the document, return it with its new id.
`now` stands for the `createdAt: Date.now` schema default. -/
def createUser (s : UserStore) (req : InsertUser) (hash : String → String)
    (now : DateT) : User × UserStore :=
  let u : User :=
    { id := toString s.nextId, username := req.username,
      password := hash req.password, role := req.role, name := req.name,
      email := req.email, contact := req.contact,
      profilePicture := req.profilePicture, createdAt := now }
  (u, { users := s.users ++ [u], nextId := s.nextId + 1 })

/-- Response of the register and login handlers: either an error with HTTP
status and message text, or a success with status, token, and the
password-stripped user. -/
inductive AuthResponse where
  | err (status : Nat) (message : String)
  | ok (status : Nat) (token : Token) (user : PublicUser)
deriving DecidableEq

/-- POST /api/auth/register handler (routes.ts lines 82-120): reject a
taken email or username with 409, otherwise create the user and answer 201
with a token and the user without its password. -/
def register (s : UserStore) (req : InsertUser) (hash : String → String)
    (now : DateT) : AuthResponse × UserStore :=
  match getUserByEmail s.users req.email with
  | some _ => (.err 409 "Email already in use", s)
  | none =>
    match getUserByUsername s.users req.username with
    | some _ => (.err 409 "Username already in use", s)
    | none =>
      let (u, s') := createUser s req hash now
      (.ok 201 (mkToken u) (stripPassword u), s')

/-- POST /api/auth/login handler (routes.ts lines 122-164).  `vrfy`
abstracts `bcrypt.compare(plain, storedHash)`.  The unknown-username branch
and the wrong-password branch each produce their own 401 response, exactly
as the two separate `res.status(401).json(...)` calls in the source. -/
def login (users : List User) (vrfy : String → String → Bool)
    (username password : String) : AuthResponse :=
  match getUserByUsername users username with
  | none => .err 401 "Invalid username or password"
  | some u =>
    if vrfy password u.password then
      .ok 200 (mkToken u) (stripPassword u)
    else
      .err 401 "Invalid username or password"

/-- Success body of GET /api/auth/me (routes.ts lines 166-182): the user
found by the authenticated id, password stripped; `none` models the 404. -/
def meBody (users : List User) (uid : String) : Option PublicUser :=
  (getUser users uid).map stripPassword

/-- Body of GET /api/users (routes.ts lines 184-200): all users, each with
the password stripped. -/
def usersBody (users : List User) : List PublicUser :=
  users.map stripPassword

/-- Body of GET /api/users/role/:role (routes.ts lines 202-218). -/
def usersByRoleBody (users : List User) (role : Role) : List PublicUser :=
  (getUsersByRole users role).map stripPassword

/-- Teacher profile salary-history event: `\x7b month, amount, paidDate: now \x7d`
pushed by MongoStorage.paySalary. -/
structure SalaryEvent where
  month : String
  amount : Int
  paidDate : DateT
deriving DecidableEq

/-- A teacher profile document (schema.ts TeacherProfileSchema). -/
structure TeacherProfile where
  id : String
  userId : String
  salary : Int
  panNumber : Option String
  aadhaarNumber : Option String
  qualification : String
  subjectSpecialization : List String
  joinDate : String
  designation : String
  employeeId : String
  salaryHistory : List SalaryEvent
deriving DecidableEq

/-- One element of the GET /api/teachers response (routes.ts lines
706-727): the teacher user without password, together with the profile
found by userId. -/
structure TeacherEntry where
  user : PublicUser
  profile : Option TeacherProfile
deriving DecidableEq

/-- Body of GET /api/teachers: for each teacher-role user, strip the
password and attach `profiles.find(p => p.userId === teacher.id)`. -/
def teachersBody (users : List User) (profiles : List TeacherProfile) :
    List TeacherEntry :=
  (getUsersByRole users Role.teacher).map (fun t =>
    { user := stripPassword t,
      profile := profiles.find? (fun p => p.userId == t.id) })

/-- MongoStorage.paySalary (schema.ts lines 1072-1087):
`findOneAndUpdate(\x7b userId \x7d, \x7b $push: \x7b salaryHistory: event \x7d \x7d, \x7b new: true \x7d)`.
The first profile whose userId matches gets the event appended; the
updated document is returned, `none` when no profile matches. -/
def paySalary : List TeacherProfile → String → String → Int → DateT →
    Option TeacherProfile × List TeacherProfile
  | [], _, _, _, _ => (none, [])
  | p :: ps, userId, month, amount, now =>
    if p.userId = userId then
      let p' := { p with
        salaryHistory := p.salaryHistory ++ [⟨month, amount, now⟩] }
      (some p', p' :: ps)
    else
      let (r, ps') := paySalary ps userId month amount now
      (r, p :: ps')

/-- An attendance document (schema.ts AttendanceSchema / docToAttendance).
`date` is the `YYYY-MM-DD` string stored by the schema. -/
structure Attendance where
  id : String
  date : String
  studentId : String
  classId : String
  sectionId : String
  status : AttendanceStatus
deriving DecidableEq

/-- The attendance collection plus the id counter. -/
structure AttendanceStore where
  rows : List Attendance
  nextId : Nat
deriving DecidableEq

/-- The fields of one attendance insert (insertAttendanceSchema). -/
structure InsertAttendance where
  date : String
  studentId : String
  classId : String
  sectionId : String
  status : AttendanceStatus
deriving DecidableEq

/-- One element of the `records` array of bulkAttendanceSchema. -/
structure BulkRecord where
  studentId : String
  status : AttendanceStatus
deriving DecidableEq

/-- MongoStorage.createAttendance (schema.ts lines 897-902):
`AttendanceModel.create(data)` — an unconditional insert. -/
def createAttendance (s : AttendanceStore) (data : InsertAttendance) :
    Attendance × AttendanceStore :=
  let row : Attendance :=
    { id := toString s.nextId, date := data.date, studentId := data.studentId,
      classId := data.classId, sectionId := data.sectionId,
      status := data.status }
  (row, { rows := s.rows ++ [row], nextId := s.nextId + 1 })

/-- POST /api/attendance/bulk handler (routes.ts lines 559-594): one
`storage.createAttendance` per record, each built from the shared date,
classId, sectionId and the record's studentId and status; the created rows
are returned with status 201. -/
def bulkMark (s : AttendanceStore) (date classId sectionId : String) :
    List BulkRecord → List Attendance × AttendanceStore
  | [] => ([], s)
  | r :: rs =>
    let (a, s') := createAttendance s
      { date := date, studentId := r.studentId, classId := classId,
        sectionId := sectionId, status := r.status }
    let (as, s'') := bulkMark s' date classId sectionId rs
    (a :: as, s'')

/-- The rows a bulk-mark call inserts, given the id counter it starts
from. -/
def bulkRows (n : Nat) (date classId sectionId : String) :
    List BulkRecord → List Attendance
  | [] => []
  | r :: rs =>
    { id := toString n, date := date, studentId := r.studentId,
      classId := classId, sectionId := sectionId, status := r.status } ::
      bulkRows (n + 1) date classId sectionId rs

/-- A fee document (schema.ts FeeSchema / docToFee). -/
structure Fee where
  id : String
  studentId : String
  amount : Int
  period : String
  dueDate : String
  status : FeeStatus
  paidDate : Option DateT
deriving DecidableEq

/-- The query filter of MongoStorage.getMonthlyRevenue (schema.ts lines
674-677): `\x7b status: "Cleared", paidDate: \x7b $gte: startOfMonth \x7d \x7d`.  A
document without a paidDate never matches the `$gte` clause. -/
def feeInRevenue (now : DateT) (f : Fee) : Bool :=
  f.status == FeeStatus.Cleared &&
    (match f.paidDate with
     | some p => DateT.leb (startOfMonth now) p
     | none => false)

/-- MongoStorage.getMonthlyRevenue (schema.ts lines 671-679): sum the
amounts of the matching fees with `reduce((sum, fee) => sum + fee.amount, 0)`. -/
def getMonthlyRevenue (fees : List Fee) (now : DateT) : Int :=
  (fees.filter (feeInRevenue now)).foldl (fun sum fee => sum + fee.amount) 0

/-- A paid date strictly inside the current calendar month, the filter the
specification sentence describes (same calendar year and month as `now`). -/
def paidWithinCurrentMonth (now : DateT) (f : Fee) : Bool :=
  f.status == FeeStatus.Cleared &&
    (match f.paidDate with
     | some p => p.year == now.year && p.month == now.month
     | none => false)

/-- Modelled from the spec sentence for the monthly-revenue claim: the sum
of the amounts of exactly those fees whose status is Cleared and whose
paidDate lies within the current calendar month. -/
def monthlyRevenueClaimed (fees : List Fee) (now : DateT) : Int :=
  ((fees.filter (paidWithinCurrentMonth now)).map Fee.amount).sum

/-- An optional paid date on or after a given date. -/
def paidOnOrAfter (d : Option DateT) (m : DateT) : Prop :=
  ∃ p, d = some p ∧ DateT.le m p

instance (d : Option DateT) (m : DateT) : Decidable (paidOnOrAfter d m) :=
  match d with
  | none => isFalse (by simp [paidOnOrAfter])
  | some p => decidable_of_iff (DateT.le m p) (by simp [paidOnOrAfter])

/-- The amended description of the revenue filter: Cleared fees whose
paidDate is on or after the first day of the current month, with no upper
bound. -/
def monthlyRevenueSinceMonthStart (fees : List Fee) (now : DateT) : Int :=
  ((fees.filter (fun f =>
      decide (f.status = FeeStatus.Cleared ∧
        paidOnOrAfter f.paidDate (startOfMonth now)))).map Fee.amount).sum

/-- MongoStorage.updateFeeStatus (schema.ts lines 1027-1036):
`findByIdAndUpdate(id, \x7b status, paidDate? \x7d, \x7b new: true \x7d)` — update the
first document whose id matches, setting paidDate only when one is
supplied, and return the updated document. -/
def updateFeeStatus : List Fee → String → FeeStatus → Option DateT →
    Option Fee × List Fee
  | [], _, _, _ => (none, [])
  | f :: fs, id, st, pd =>
    if f.id = id then
      let f' := { f with
        status := st,
        paidDate := (match pd with | some d => some d | none => f.paidDate) }
      (some f', f' :: fs)
    else
      let (r, fs') := updateFeeStatus fs id st pd
      (r, f :: fs')

/-- Outcome of the PATCH /api/fees/:id/pay handler. -/
inductive PayFeeResult where
  | notFound
  | ok (fee : Fee)
deriving DecidableEq

/-- PATCH /api/fees/:id/pay handler (part_007 lines 854-874):
`updateFeeStatus(id, "Cleared", new Date())`, 404 when the fee is absent,
otherwise the updated fee. -/
def payFeeHandler (fees : List Fee) (id : String) (now : DateT) :
    PayFeeResult × List Fee :=
  match updateFeeStatus fees id FeeStatus.Cleared (some now) with
  | (none, fees') => (.notFound, fees')
  | (some f, fees') => (.ok f, fees')

/-- A student document (schema.ts StudentSchema / docToStudent). -/
structure Student where
  id : String
  userId : String
  admissionNumber : String
  rollNumber : String
  classId : String
  sectionId : String
  guardianName : String
  guardianContact : String
  guardianEmail : Option String
deriving DecidableEq

/-- Division that is only defined for a nonzero divisor, modelling the
fact that the JS division `presentCount / students.length` is meaningful
only when the guard has ruled out a zero denominator. -/
def ratDiv (a b : ℚ) : Option ℚ :=
  if b = 0 then none else some (a / b)

/-- `Math.round` on a non-negative value: the nearest integer, halves
rounding up. -/
def jsRound (q : ℚ) : ℕ :=
  ⌊q + 1 / 2⌋₊

/-- MongoStorage.getTodayAttendancePercentage (schema.ts lines 681-691):
0 when there are no students, otherwise
`Math.round((presentCount / students.length) * 100)` where presentCount
counts attendance documents with today's date and status Present. -/
def getTodayAttendancePercentage (students : List Student)
    (attendance : List Attendance) (today : String) : Option ℕ :=
  if students.length = 0 then some 0
  else
    let presentCount := (attendance.filter (fun a =>
      a.date == today && a.status == AttendanceStatus.Present)).length
    (ratDiv (presentCount : ℚ) (students.length : ℚ)).map
      (fun q => jsRound (q * 100))

/-- A timetable document (schema.ts TimetableSchema / docToTimetable). -/
structure Timetable where
  id : String
  classId : String
  sectionId : String
  teacherId : String
  subject : String
  dayOfWeek : Nat
  periodNumber : Nat
  startTime : String
  endTime : String
deriving DecidableEq

/-- The fields of one timetable insert (insertTimetableSchema). -/
structure InsertTimetable where
  classId : String
  sectionId : String
  teacherId : String
  subject : String
  dayOfWeek : Nat
  periodNumber : Nat
  startTime : String
  endTime : String
deriving DecidableEq

/-- The timetable collection plus the id counter. -/
structure TimetableStore where
  entries : List Timetable
  nextId : Nat
deriving DecidableEq

/-- MongoStorage.getTimetableByTeacherPeriod (schema.ts lines 693-704):
`TimetableModel.findOne(\x7b teacherId, dayOfWeek, periodNumber \x7d)`. -/
def getTimetableByTeacherPeriod (entries : List Timetable)
    (teacherId : String) (dayOfWeek periodNumber : Nat) : Option Timetable :=
  entries.find? (fun t =>
    t.teacherId == teacherId && t.dayOfWeek == dayOfWeek &&
      t.periodNumber == periodNumber)

/-- An existing entry sharing the (classId, sectionId, dayOfWeek,
periodNumber) key of the first unique index (schema.ts lines 400-403). -/
def classKeyConflict (entries : List Timetable) (e : InsertTimetable) : Bool :=
  entries.any (fun t =>
    t.classId == e.classId && t.sectionId == e.sectionId &&
      t.dayOfWeek == e.dayOfWeek && t.periodNumber == e.periodNumber)

/-- An existing entry sharing the (teacherId, dayOfWeek, periodNumber) key
of the second unique index (schema.ts lines 404-407). -/
def teacherKeyConflict (entries : List Timetable) (e : InsertTimetable) : Bool :=
  entries.any (fun t =>
    t.teacherId == e.teacherId && t.dayOfWeek == e.dayOfWeek &&
      t.periodNumber == e.periodNumber)

/-- The timetable row built for an insert, with its generated id. -/
def mkTimetableRow (n : Nat) (e : InsertTimetable) : Timetable :=
  { id := toString n, classId := e.classId, sectionId := e.sectionId,
    teacherId := e.teacherId, subject := e.subject, dayOfWeek := e.dayOfWeek,
    periodNumber := e.periodNumber, startTime := e.startTime,
    endTime := e.endTime }

/-- MongoStorage.createTimetable (schema.ts lines 718-721):
`TimetableModel.create(data)`.  The collection carries the two unique
indexes of schema.ts lines 400-407, so Mongo rejects the insert with a
duplicate-key error when either composite key is already present;
otherwise the document is stored. -/
def createTimetable (s : TimetableStore) (e : InsertTimetable) :
    Except Unit (Timetable × TimetableStore) :=
  if classKeyConflict s.entries e || teacherKeyConflict s.entries e then
    .error ()
  else
    let row := mkTimetableRow s.nextId e
    .ok (row, { entries := s.entries ++ [row], nextId := s.nextId + 1 })

/-- Response of a POST /api/timetable handler. -/
inductive TimetableResponse where
  | badRequest (message : String)
  | created (t : Timetable)
  | serverError
deriving DecidableEq

/-- HTTP status of a timetable-creation response: res.status(400),
res.status(201), res.status(500) in the source. -/
def TimetableResponse.statusOf : TimetableResponse → Nat
  | .badRequest _ => 400
  | .created _ => 201
  | .serverError => 500

/-- POST /api/timetable handler, check-based revision (routes.ts lines
816-849): query getTimetableByTeacherPeriod first and answer 400 with
"Teacher is already busy during this period." when an entry exists;
otherwise call createTimetable, answering 201 on success and letting a
thrown persistence error reach the catch block, which answers 500. -/
def createTimetableCheckBased (s : TimetableStore) (e : InsertTimetable) :
    TimetableResponse × TimetableStore :=
  match getTimetableByTeacherPeriod s.entries e.teacherId e.dayOfWeek
      e.periodNumber with
  | some _ => (.badRequest "Teacher is already busy during this period.", s)
  | none =>
    match createTimetable s e with
    | .ok (row, s') => (.created row, s')
    | .error _ => (.serverError, s)

/-- POST /api/timetable handler, index-reliant revision (part_007 lines
899-919): no application-level pre-check, just createTimetable, with a
thrown persistence error reaching the catch block and answering 500. -/
def createTimetableIndexReliant (s : TimetableStore) (e : InsertTimetable) :
    TimetableResponse × TimetableStore :=
  match createTimetable s e with
  | .ok (row, s') => (.created row, s')
  | .error _ => (.serverError, s)

/-- MongoStorage.getSubstituteTeachers (schema.ts lines 728-761): all
teacher-role users, minus the excluded teacher, minus every teacher with a
timetable entry at the given (dayOfWeek, periodNumber).  The `subject`
parameter is accepted but never used by the body, exactly as in the
source. -/
def getSubstituteTeachers (users : List User) (entries : List Timetable)
    (dayOfWeek periodNumber : Nat) (excludedTeacherId : String)
    (subject : Option String) : List User :=
  let teachers := users.filter (fun u => u.role == Role.teacher)
  let busyTimetables := entries.filter (fun t =>
    t.dayOfWeek == dayOfWeek && t.periodNumber == periodNumber)
  let busyTeacherIds := busyTimetables.map Timetable.teacherId
  teachers.filter (fun t =>
    t.id != excludedTeacherId && !(busyTeacherIds.contains t.id))

/-!
Concrete sample data used to evaluate the definitions on explicit inputs.
-/

/-- A sample admin user. -/
def userAlice : User :=
  { id := "u1", username := "alice", password := "hashA", role := Role.admin,
    name := "Alice", email := "alice@example.com", contact := none,
    profilePicture := none, createdAt := ⟨2024, 0, 1⟩ }

/-- The same user with a different stored password hash. -/
def userAliceAlt : User :=
  { userAlice with password := "hashB" }

/-- A sample teacher user. -/
def userTina : User :=
  { id := "u2", username := "tina", password := "hashT", role := Role.teacher,
    name := "Tina", email := "tina@example.com", contact := none,
    profilePicture := none, createdAt := ⟨2024, 0, 2⟩ }

/-- A user store holding `userAlice` and `userTina`. -/
def storeW1 : UserStore :=
  { users := [userAlice, userTina], nextId := 3 }

/-- The same store except for Alice's password hash. -/
def storeW2 : UserStore :=
  { users := [userAliceAlt, userTina], nextId := 3 }

/-- A password verifier that rejects everything. -/
def vrfyNever : String → String → Bool := fun _ _ => false

/-- A stand-in deterministic hash function. -/
def hashInert : String → String := fun s => String.append s "#h"

/-- A sample registration request. -/
def reqBob : InsertUser :=
  { username := "bob", password := "secret99", role := Role.student,
    name := "Bob", email := "bob@example.com", contact := none,
    profilePicture := none }

/-- A Cleared fee whose paidDate falls in the month after `nowMay`. -/
def feeJune : Fee :=
  { id := "f1", studentId := "s1", amount := 100, period := "June 2024",
    dueDate := "2024-06-30", status := FeeStatus.Cleared,
    paidDate := some ⟨2024, 5, 1⟩ }

/-- A current date in May 2024 (0-based month 4). -/
def nowMay : DateT := ⟨2024, 4, 15⟩

/-- A Pending fee with no paid date. -/
def feePending : Fee :=
  { id := "f2", studentId := "s1", amount := 250, period := "May 2024",
    dueDate := "2024-05-31", status := FeeStatus.Pending, paidDate := none }

/-- A sample student. -/
def studentSam : Student :=
  { id := "st1", userId := "u3", admissionNumber := "A1", rollNumber := "1",
    classId := "c1", sectionId := "sec1", guardianName := "Gail",
    guardianContact := "555", guardianEmail := none }

/-- A Present attendance row for `studentSam` on 2024-05-01. -/
def attSam : Attendance :=
  { id := "a1", date := "2024-05-01", studentId := "st1", classId := "c1",
    sectionId := "sec1", status := AttendanceStatus.Present }

/-- A sample teacher profile for `userTina` with an empty salary history. -/
def profTina : TeacherProfile :=
  { id := "tp1", userId := "u2", salary := 50000, panNumber := none,
    aadhaarNumber := none, qualification := "MSc",
    subjectSpecialization := ["Math"], joinDate := "2023-06-01",
    designation := "PGT", employeeId := "E2", salaryHistory := [] }

/-- A stored timetable entry: teacher "T" in class "C" section "A",
day 1, period 1. -/
def ttExisting : Timetable :=
  { id := "0", classId := "C", sectionId := "A", teacherId := "T",
    subject := "Math", dayOfWeek := 1, periodNumber := 1,
    startTime := "09:00", endTime := "09:45" }

/-- A timetable store holding just `ttExisting`. -/
def ttStore1 : TimetableStore :=
  { entries := [ttExisting], nextId := 1 }

/-- A request whose only conflict is the teacher key: teacher "T" is
already booked at day 1, period 1, but the class key (D, A, 1, 1) is
free. -/
def reqTeacherClash : InsertTimetable :=
  { classId := "D", sectionId := "A", teacherId := "T", subject := "Math",
    dayOfWeek := 1, periodNumber := 1, startTime := "09:00",
    endTime := "09:45" }

/-- A request whose only conflict is the class key: (C, A, 1, 1) is taken,
but teacher "U" is free at day 1, period 1. -/
def reqClassClash : InsertTimetable :=
  { classId := "C", sectionId := "A", teacherId := "U", subject := "Science",
    dayOfWeek := 1, periodNumber := 1, startTime := "09:00",
    endTime := "09:45" }

/-- A request with no conflict at all: teacher "U", class "D", day 2. -/
def reqFree : InsertTimetable :=
  { classId := "D", sectionId := "B", teacherId := "U", subject := "Science",
    dayOfWeek := 2, periodNumber := 3, startTime := "11:00",
    endTime := "11:45" }

/-- Password-equivalence of user collections: pointwise equal on every
field except the stored password. -/
def pwEquiv (a b : List User) : Prop :=
  List.Forall₂ (fun u v => stripPassword u = stripPassword v) a b

/-!
Helper lemmas.
-/

/-- A bulk-mark call appends exactly the rows of `bulkRows` and advances
the id counter by the record count. -/
theorem bulkMark_state (date classId sectionId : String) :
    ∀ (recs : List BulkRecord) (s : AttendanceStore),
      (bulkMark s date classId sectionId recs).2 =
        { rows := s.rows ++ bulkRows s.nextId date classId sectionId recs,
          nextId := s.nextId + recs.length } := by
  intro recs
  induction recs with
  | nil => intro s; simp [bulkMark, bulkRows]
  | cons r rs ih =>
    intro s
    simp only [bulkMark, createAttendance, bulkRows]
    rw [ih]
    simp [List.append_assoc]
    omega

/-- `bulkRows` produces one row per record. -/
theorem bulkRows_length (date classId sectionId : String) :
    ∀ (recs : List BulkRecord) (n : Nat),
      (bulkRows n date classId sectionId recs).length = recs.length := by
  intro recs
  induction recs with
  | nil => intro n; simp [bulkRows]
  | cons r rs ih => intro n; simp [bulkRows, ih]

/-- Every row `bulkRows` produces carries the submitted date. -/
theorem bulkRows_filter_date (date classId sectionId : String) :
    ∀ (recs : List BulkRecord) (n : Nat),
      (bulkRows n date classId sectionId recs).filter
        (fun a => a.date == date) =
          bulkRows n date classId sectionId recs := by
  intro recs
  induction recs with
  | nil => intro n; simp [bulkRows]
  | cons r rs ih => intro n; simp [bulkRows, ih]

/-!
Claim theorems.
-/

/-- C2: bulkMark inserts exactly N rows unconditionally — the prior rows
are kept verbatim and N new rows are appended — and submitting the same
N records twice for the same date leaves the store with 2N rows carrying
that date on top of whatever it already had, rather than overwriting. -/
theorem C2_bulkMark_appends_unconditionally
    (s : AttendanceStore) (date classId sectionId : String)
    (recs : List BulkRecord) :
    ((bulkMark s date classId sectionId recs).2.rows.length =
        s.rows.length + recs.length) ∧
    (∃ inserted,
      (bulkMark s date classId sectionId recs).2.rows = s.rows ++ inserted ∧
      inserted.length = recs.length) ∧
    (((bulkMark ((bulkMark s date classId sectionId recs).2) date classId
          sectionId recs).2.rows.filter (fun a => a.date == date)).length =
      (s.rows.filter (fun a => a.date == date)).length + 2 * recs.length) := by
  refine ⟨?_, ?_, ?_⟩
  · rw [bulkMark_state]
    simp [bulkRows_length]
  · exact ⟨bulkRows s.nextId date classId sectionId recs,
      congrArg AttendanceStore.rows (bulkMark_state date classId sectionId recs s),
      bulkRows_length date classId sectionId recs s.nextId⟩
  · rw [bulkMark_state, bulkMark_state]
    simp [List.filter_append, bulkRows_filter_date, bulkRows_length]
    omega

/-- C3: the substitute lookup returns exactly the teacher-role users other
than the excluded teacher and other than every teacher occupied by a
timetable entry at the given (day, period); the accepted subject parameter
does not change the result. -/
theorem C3_getSubstituteTeachers_exact
    (users : List User) (entries : List Timetable)
    (dayOfWeek periodNumber : Nat) (excludedTeacherId : String)
    (subject subject' : Option String) :
    (∀ u, u ∈ getSubstituteTeachers users entries dayOfWeek periodNumber
        excludedTeacherId subject ↔
      (u ∈ users ∧ u.role = Role.teacher ∧ u.id ≠ excludedTeacherId ∧
        ∀ t ∈ entries, t.dayOfWeek = dayOfWeek → t.periodNumber = periodNumber →
          t.teacherId ≠ u.id)) ∧
    getSubstituteTeachers users entries dayOfWeek periodNumber
        excludedTeacherId subject =
      getSubstituteTeachers users entries dayOfWeek periodNumber
        excludedTeacherId subject' := by
  constructor
  · intro u
    simp only [getSubstituteTeachers, List.mem_filter, List.mem_map,
      Bool.and_eq_true, bne_iff_ne, ne_eq, beq_iff_eq, List.elem_eq_mem,
      decide_eq_false_iff_not, Bool.not_eq_true', and_assoc]
    push_neg
    tauto
  · rfl

/-- C4: the login failure for an unknown username and the login failure
for a known username with a rejected password are the same response, a 401
with one fixed message text. -/
theorem C4_login_uniform_failure
    (users : List User) (vrfy : String → String → Bool)
    (unameUnknown pw1 unameKnown pw2 : String) (usr : User)
    (hnone : getUserByUsername users unameUnknown = none)
    (hsome : getUserByUsername users unameKnown = some usr)
    (hbad : vrfy pw2 usr.password = false) :
    login users vrfy unameUnknown pw1 = login users vrfy unameKnown pw2 ∧
    login users vrfy unameUnknown pw1 =
      AuthResponse.err 401 "Invalid username or password" := by
  simp [login, hnone, hsome, hbad]

/-- C4 witness: with a store holding only Alice and a verifier that
rejects the attempt, the unknown-user attempt for "bob" and the
wrong-password attempt for "alice" produce the identical 401 response. -/
theorem C4_login_uniform_failure_witness :
    login storeW1.users vrfyNever "bob" "pw" =
      login storeW1.users vrfyNever "alice" "pw" ∧
    login storeW1.users vrfyNever "bob" "pw" =
      AuthResponse.err 401 "Invalid username or password" :=
  C4_login_uniform_failure storeW1.users vrfyNever "bob" "pw" "alice" "pw"
    userAlice (by decide) (by decide) (by decide)

/-- Folding fee amounts with addition from an accumulator is the
accumulator plus the sum of the amounts. -/
theorem foldl_add_amount (l : List Fee) (c : Int) :
    l.foldl (fun sum fee => sum + fee.amount) c = c + (l.map Fee.amount).sum := by
  induction l generalizing c with
  | nil => simp
  | cons f fs ih => simp [ih, add_assoc]

/-- The revenue query filter agrees with the Cleared-and-paid-on-or-after
predicate. -/
theorem feeInRevenue_eq (now : DateT) (f : Fee) :
    feeInRevenue now f =
      decide (f.status = FeeStatus.Cleared ∧
        paidOnOrAfter f.paidDate (startOfMonth now)) := by
  rcases f with ⟨id, sid, amt, per, due, st, pd⟩
  rcases pd with _ | p
  · rcases st <;> simp [feeInRevenue, paidOnOrAfter, DateT.le]
  · rcases st <;> simp [feeInRevenue, paidOnOrAfter, DateT.le]

/-- getMonthlyRevenue splits over list append. -/
theorem getMonthlyRevenue_append (a b : List Fee) (now : DateT) :
    getMonthlyRevenue (a ++ b) now =
      getMonthlyRevenue a now + getMonthlyRevenue b now := by
  simp [getMonthlyRevenue, List.filter_append, foldl_add_amount]

/-- getMonthlyRevenue of a single fee. -/
theorem getMonthlyRevenue_cons (f : Fee) (l : List Fee) (now : DateT) :
    getMonthlyRevenue (f :: l) now =
      (if feeInRevenue now f then f.amount else 0) + getMonthlyRevenue l now := by
  by_cases h : feeInRevenue now f <;>
    simp [getMonthlyRevenue, List.filter_cons, h, foldl_add_amount]

/-- Any date with a day of month at least 1 is on or after the first day
of its own month. -/
theorem startOfMonth_leb_self (now : DateT) (h : 1 ≤ now.day) :
    DateT.leb (startOfMonth now) now = true := by
  simp [DateT.leb, startOfMonth, h]

/-- updateFeeStatus updates exactly the first fee carrying the searched
id, leaving every other list element unchanged. -/
theorem updateFeeStatus_first (pre : List Fee) (f : Fee) (post : List Fee)
    (st : FeeStatus) (pd : Option DateT) (h : f.id ∉ pre.map Fee.id) :
    updateFeeStatus (pre ++ f :: post) f.id st pd =
      (some { f with
          status := st,
          paidDate := (match pd with | some d => some d | none => f.paidDate) },
        pre ++ { f with
          status := st,
          paidDate := (match pd with | some d => some d | none => f.paidDate) }
            :: post) := by
  induction pre with
  | nil => simp [updateFeeStatus]
  | cons g gs ih =>
    simp only [List.map_cons, List.mem_cons, not_or] at h
    have hg : ¬ g.id = f.id := fun hc => h.1 (hc ▸ rfl)
    simp only [List.cons_append, updateFeeStatus]
    rw [if_neg hg]
    simp only [List.append_eq]
    rw [ih h.2]

/-- C5 counterexample: the claim says only fees paid within the current
calendar month are summed, but the query has no upper bound — with the
current date in May 2024, a Cleared fee whose paidDate is June 1, 2024 is
included by getMonthlyRevenue (sum 100) even though the claimed
calendar-month filter would exclude it (sum 0). -/
theorem C5_revenue_counterexample :
    getMonthlyRevenue [feeJune] nowMay = 100 ∧
    monthlyRevenueClaimed [feeJune] nowMay = 0 :=
  ⟨by decide, by decide⟩

/-- C5 amended: getMonthlyRevenue returns the sum of the amounts of
exactly those fees whose status is Cleared and whose paidDate is on or
after the first day of the current calendar month; Pending fees, fees with
no paidDate, and fees paid before the start of the month contribute
nothing, but fees with a paidDate in a later month do count. -/
theorem C5_revenue_since_month_start (fees : List Fee) (now : DateT) :
    getMonthlyRevenue fees now = monthlyRevenueSinceMonthStart fees now := by
  unfold getMonthlyRevenue monthlyRevenueSinceMonthStart
  rw [foldl_add_amount, zero_add]
  congr 1
  apply congrArg
  apply List.filter_congr
  intro f _
  rw [feeInRevenue_eq]

/-- C6: paying an existing Pending fee turns its status to Cleared and
stamps the paid date, leaving its other fields and every other stored fee
unchanged, and the monthly revenue for the current month grows by exactly
that fee's amount. -/
theorem C6_payFee_revenue (pre post : List Fee) (f : Fee) (now : DateT)
    (hp : f.status = FeeStatus.Pending)
    (hid : f.id ∉ pre.map Fee.id)
    (hday : 1 ≤ now.day) :
    payFeeHandler (pre ++ f :: post) f.id now =
      (PayFeeResult.ok
        { f with status := FeeStatus.Cleared, paidDate := some now },
       pre ++ { f with status := FeeStatus.Cleared, paidDate := some now }
          :: post) ∧
    getMonthlyRevenue
        (pre ++ { f with status := FeeStatus.Cleared, paidDate := some now }
          :: post) now =
      getMonthlyRevenue (pre ++ f :: post) now + f.amount := by
  have hupd := updateFeeStatus_first pre f post FeeStatus.Cleared (some now) hid
  constructor
  · simp only [payFeeHandler, hupd]
  · rw [getMonthlyRevenue_append, getMonthlyRevenue_append,
      getMonthlyRevenue_cons, getMonthlyRevenue_cons]
    have hfOld : feeInRevenue now f = false := by
      simp [feeInRevenue, hp]
    have hfNew : feeInRevenue now
        { f with status := FeeStatus.Cleared, paidDate := some now } = true := by
      simp [feeInRevenue, startOfMonth_leb_self now hday]
    rw [hfOld, hfNew]
    simp
    ring

/-- C6 witness: paying the concrete Pending fee `feePending` on May 15,
2024 clears it, stamps the date, and raises the May revenue by its amount
250. -/
theorem C6_payFee_revenue_witness :
    payFeeHandler [feePending] feePending.id nowMay =
      (PayFeeResult.ok
        { feePending with
            status := FeeStatus.Cleared, paidDate := some nowMay },
       [{ feePending with
            status := FeeStatus.Cleared, paidDate := some nowMay }]) ∧
    getMonthlyRevenue
        [{ feePending with
            status := FeeStatus.Cleared, paidDate := some nowMay }] nowMay =
      getMonthlyRevenue [feePending] nowMay + feePending.amount := by
  have h := C6_payFee_revenue [] [] feePending nowMay (by decide) (by decide)
    (by decide)
  simpa using h

/-- C7: the attendance-percentage aggregate is total — its division is
guarded, so it always produces a value: 0 when no students exist, and
otherwise the count of today's Present attendance records divided by the
student count, expressed as a rounded percentage; the unguarded-division
branch is never reached when at least one student exists. -/
theorem C7_attendance_percentage_total (students : List Student)
    (attendance : List Attendance) (today : String) :
    (getTodayAttendancePercentage students attendance today).isSome = true ∧
    (students = [] →
      getTodayAttendancePercentage students attendance today = some 0) ∧
    (students ≠ [] →
      getTodayAttendancePercentage students attendance today =
        some (jsRound
          (((attendance.filter (fun a =>
              a.date == today && a.status == AttendanceStatus.Present)).length
            * 100 : ℚ) / (students.length : ℚ)))) := by
  by_cases h : students.length = 0
  · have hnil : students = [] := List.length_eq_zero.mp h
    refine ⟨?_, fun _ => ?_, fun hne => absurd hnil hne⟩ <;>
      simp [getTodayAttendancePercentage, h]
  · have hne : students ≠ [] := fun hc => h (by simp [hc])
    have hq : (students.length : ℚ) ≠ 0 := by
      exact_mod_cast h
    refine ⟨?_, fun hc => absurd hc hne, fun _ => ?_⟩
    · simp [getTodayAttendancePercentage, h, ratDiv, hq]
    · simp only [getTodayAttendancePercentage, if_neg h, ratDiv, if_neg hq,
        Option.map_some']
      congr 1
      rw [div_mul_eq_mul_div]

/-- C7 witness: with no students the aggregate is 0; with one student and
one Present record today it is 100. -/
theorem C7_attendance_percentage_total_witness :
    getTodayAttendancePercentage [] [attSam] "2024-05-01" = some 0 ∧
    getTodayAttendancePercentage [studentSam] [attSam] "2024-05-01" =
      some 100 := by
  refine ⟨(C7_attendance_percentage_total [] [attSam] "2024-05-01").2.1 rfl, ?_⟩
  have h := (C7_attendance_percentage_total [studentSam] [attSam]
    "2024-05-01").2.2 (by simp)
  rw [h]
  norm_num [jsRound, attSam]
  rw [Nat.floor_eq_iff (by norm_num : (0 : ℚ) ≤ 201 / 2)]
  norm_num

/-- paySalary appends the event to exactly the first profile carrying the
searched userId, leaving every other list element unchanged. -/
theorem paySalary_first (pre : List TeacherProfile) (p : TeacherProfile)
    (post : List TeacherProfile) (month : String) (amount : Int) (now : DateT)
    (h : p.userId ∉ pre.map TeacherProfile.userId) :
    paySalary (pre ++ p :: post) p.userId month amount now =
      (some { p with
          salaryHistory := p.salaryHistory ++ [⟨month, amount, now⟩] },
        pre ++ { p with
          salaryHistory := p.salaryHistory ++ [⟨month, amount, now⟩] }
            :: post) := by
  induction pre with
  | nil => simp [paySalary]
  | cons g gs ih =>
    simp only [List.map_cons, List.mem_cons, not_or] at h
    have hg : ¬ g.userId = p.userId := fun hc => h.1 (hc ▸ rfl)
    simp only [List.cons_append, paySalary]
    rw [if_neg hg]
    simp only [List.append_eq]
    rw [ih h.2]

/-- C8: paying a salary appends exactly one (month, amount, now) event to
the end of the matched profile's history, leaving prior events, the
profile's other fields and all other profiles untouched; there is no
month-uniqueness check, so a second call with the same month appends a
second event for that month. -/
theorem C8_paySalary_appends (pre post : List TeacherProfile)
    (p : TeacherProfile) (month : String) (amount : Int) (now1 now2 : DateT)
    (h : p.userId ∉ pre.map TeacherProfile.userId) :
    paySalary (pre ++ p :: post) p.userId month amount now1 =
      (some { p with
          salaryHistory := p.salaryHistory ++ [⟨month, amount, now1⟩] },
        pre ++ { p with
          salaryHistory := p.salaryHistory ++ [⟨month, amount, now1⟩] }
            :: post) ∧
    (paySalary (pre ++ { p with
        salaryHistory := p.salaryHistory ++ [⟨month, amount, now1⟩] } :: post)
        p.userId month amount now2).2 =
      pre ++ { p with
        salaryHistory := p.salaryHistory ++
          [⟨month, amount, now1⟩, ⟨month, amount, now2⟩] } :: post := by
  constructor
  · exact paySalary_first pre p post month amount now1 h
  · have h2 := paySalary_first pre
      { p with salaryHistory := p.salaryHistory ++ [⟨month, amount, now1⟩] }
      post month amount now2 h
    rw [h2]
    simp

/-- C8 witness: paying Tina's March salary twice appends two March events
to her initially empty history. -/
theorem C8_paySalary_appends_witness :
    paySalary [profTina] profTina.userId "2024-03" 50000 nowMay =
      (some { profTina with
          salaryHistory := [⟨"2024-03", 50000, nowMay⟩] },
        [{ profTina with
          salaryHistory := [⟨"2024-03", 50000, nowMay⟩] }]) ∧
    (paySalary [{ profTina with
        salaryHistory := [⟨"2024-03", 50000, nowMay⟩] }]
        profTina.userId "2024-03" 50000 nowMay).2 =
      [{ profTina with
        salaryHistory := [⟨"2024-03", 50000, nowMay⟩,
          ⟨"2024-03", 50000, nowMay⟩] }] := by
  have h := C8_paySalary_appends [] [] profTina "2024-03" 50000 nowMay nowMay
    (by decide)
  simpa [profTina] using h

/-- When the teacher-slot lookup finds nothing, the teacher-key unique
index cannot fire either: both scan the same (teacherId, dayOfWeek,
periodNumber) key. -/
theorem teacherKeyConflict_of_find_none (entries : List Timetable)
    (e : InsertTimetable)
    (h : getTimetableByTeacherPeriod entries e.teacherId e.dayOfWeek
      e.periodNumber = none) :
    teacherKeyConflict entries e = false := by
  simp only [getTimetableByTeacherPeriod, List.find?_eq_none] at h
  simp only [teacherKeyConflict, List.any_eq_false]
  exact h

/-- When the teacher-slot lookup finds an entry, the teacher-key unique
index fires. -/
theorem teacherKeyConflict_of_find_some (entries : List Timetable)
    (e : InsertTimetable) (t : Timetable)
    (h : getTimetableByTeacherPeriod entries e.teacherId e.dayOfWeek
      e.periodNumber = some t) :
    teacherKeyConflict entries e = true := by
  have hmem : t ∈ entries := List.mem_of_find?_eq_some h
  have hpred := List.find?_some h
  simp only [teacherKeyConflict, List.any_eq_true]
  exact ⟨t, hmem, hpred⟩

/-- C1 (amended): on a teacher-slot match the check-based handler answers
400 — not 409 — with "Teacher is already busy during this period." and
stores nothing; with no teacher match and no (class, section, day, period)
duplicate it answers 201 and appends the entry; with no teacher match but
a (class, section, day, period) duplicate the persistence unique index
rejects the insert and the handler answers 500, storing nothing. -/
theorem C1_createTimetable_conflict (s : TimetableStore) (e : InsertTimetable) :
    ((∃ t, getTimetableByTeacherPeriod s.entries e.teacherId e.dayOfWeek
        e.periodNumber = some t) →
      createTimetableCheckBased s e =
        (TimetableResponse.badRequest
          "Teacher is already busy during this period.", s)) ∧
    (getTimetableByTeacherPeriod s.entries e.teacherId e.dayOfWeek
        e.periodNumber = none →
      classKeyConflict s.entries e = false →
      createTimetableCheckBased s e =
        (TimetableResponse.created (mkTimetableRow s.nextId e),
          { entries := s.entries ++ [mkTimetableRow s.nextId e],
            nextId := s.nextId + 1 })) ∧
    (getTimetableByTeacherPeriod s.entries e.teacherId e.dayOfWeek
        e.periodNumber = none →
      classKeyConflict s.entries e = true →
      createTimetableCheckBased s e = (TimetableResponse.serverError, s)) := by
  refine ⟨?_, ?_, ?_⟩
  · rintro ⟨t, ht⟩
    simp [createTimetableCheckBased, ht]
  · intro hfind hclass
    have htk := teacherKeyConflict_of_find_none s.entries e hfind
    simp [createTimetableCheckBased, hfind, createTimetable, hclass, htk]
  · intro hfind hclass
    simp [createTimetableCheckBased, hfind, createTimetable, hclass]

/-- C1 counterexample: with teacher "T" already scheduled at (day 1,
period 1), the conflicting request is answered with status 400, not the
409 the claim states; and a request conflicting only on the class key is
answered 500, not the 201 success the claim states for requests with no
teacher-slot match. -/
theorem C1_createTimetable_conflict_counterexample :
    ((createTimetableCheckBased ttStore1 reqTeacherClash).1.statusOf = 400 ∧
      (createTimetableCheckBased ttStore1 reqTeacherClash).1.statusOf ≠ 409) ∧
    ((createTimetableCheckBased ttStore1 reqClassClash).1.statusOf = 500 ∧
      (createTimetableCheckBased ttStore1 reqClassClash).1.statusOf ≠ 201) := by
  decide

/-- C1 witness: the three concrete behaviours of the check-based handler
on the sample store. -/
theorem C1_createTimetable_conflict_witness :
    createTimetableCheckBased ttStore1 reqTeacherClash =
      (TimetableResponse.badRequest
        "Teacher is already busy during this period.", ttStore1) ∧
    createTimetableCheckBased ttStore1 reqFree =
      (TimetableResponse.created (mkTimetableRow ttStore1.nextId reqFree),
        { entries := ttStore1.entries ++ [mkTimetableRow ttStore1.nextId reqFree],
          nextId := ttStore1.nextId + 1 }) ∧
    createTimetableCheckBased ttStore1 reqClassClash =
      (TimetableResponse.serverError, ttStore1) :=
  ⟨(C1_createTimetable_conflict ttStore1 reqTeacherClash).1
      ⟨ttExisting, by decide⟩,
   (C1_createTimetable_conflict ttStore1 reqFree).2.1 (by decide) (by decide),
   (C1_createTimetable_conflict ttStore1 reqClassClash).2.2 (by decide)
      (by decide)⟩

/-- C9 counterexample: the claim asserts some input whose only conflict is
the (class, section, day, period) key distinguishes the two handler
revisions; in fact on every such input both revisions behave identically
(the pre-check passes and the persistence index rejects the insert in
both), so no distinguishing input of that shape exists. -/
theorem C9_revisions_counterexample :
    ¬ ∃ (s : TimetableStore) (e : InsertTimetable),
      getTimetableByTeacherPeriod s.entries e.teacherId e.dayOfWeek
          e.periodNumber = none ∧
      classKeyConflict s.entries e = true ∧
      createTimetableCheckBased s e ≠ createTimetableIndexReliant s e := by
  rintro ⟨s, e, hfind, _, hne⟩
  apply hne
  unfold createTimetableCheckBased createTimetableIndexReliant
  rw [hfind]

/-- C9 (amended): the two revisions are indeed not behaviorally
equivalent, but the inputs that distinguish them are those whose conflict
is on the (teacher, day, period) key — the check-based revision answers
400 without inserting while the index-reliant one surfaces a persistence
error as 500; on every input with no teacher-slot match, including those
whose only conflict is on (class, section, day, period), the two revisions
produce identical outcomes. -/
theorem C9_revisions_divergence (s : TimetableStore) (e : InsertTimetable) :
    ((∃ t, getTimetableByTeacherPeriod s.entries e.teacherId e.dayOfWeek
        e.periodNumber = some t) →
      createTimetableCheckBased s e =
        (TimetableResponse.badRequest
          "Teacher is already busy during this period.", s) ∧
      createTimetableIndexReliant s e = (TimetableResponse.serverError, s) ∧
      createTimetableCheckBased s e ≠ createTimetableIndexReliant s e) ∧
    (getTimetableByTeacherPeriod s.entries e.teacherId e.dayOfWeek
        e.periodNumber = none →
      createTimetableCheckBased s e = createTimetableIndexReliant s e) := by
  constructor
  · rintro ⟨t, ht⟩
    have htk := teacherKeyConflict_of_find_some s.entries e t ht
    refine ⟨by simp [createTimetableCheckBased, ht], ?_, ?_⟩
    · simp [createTimetableIndexReliant, createTimetable, htk]
    · simp [createTimetableCheckBased, createTimetableIndexReliant, ht,
        createTimetable, htk]
  · intro hfind
    unfold createTimetableCheckBased createTimetableIndexReliant
    rw [hfind]

/-- C9 witness: on the sample store, the teacher-clash request separates
the two revisions while the class-clash request does not. -/
theorem C9_revisions_divergence_witness :
    createTimetableCheckBased ttStore1 reqTeacherClash ≠
      createTimetableIndexReliant ttStore1 reqTeacherClash ∧
    createTimetableCheckBased ttStore1 reqClassClash =
      createTimetableIndexReliant ttStore1 reqClassClash :=
  ⟨((C9_revisions_divergence ttStore1 reqTeacherClash).1
      ⟨ttExisting, by decide⟩).2.2,
   (C9_revisions_divergence ttStore1 reqClassClash).2 (by decide)⟩

/-- Any two users agreeing on everything but the password produce the same
token payload. -/
theorem mkToken_congr {u v : User}
    (h : stripPassword u = stripPassword v) : mkToken u = mkToken v := by
  have hid : u.id = v.id := congrArg PublicUser.id h
  have hrole : u.role = v.role := congrArg PublicUser.role h
  have hemail : u.email = v.email := congrArg PublicUser.email h
  simp [mkToken, hid, hrole, hemail]

/-- find? commutes with password stripping for any predicate that does
not inspect the password. -/
theorem find?_map_strip (p : User → Bool)
    (hp : ∀ u v, stripPassword u = stripPassword v → p u = p v)
    {a b : List User} (h : pwEquiv a b) :
    Option.map stripPassword (a.find? p) =
      Option.map stripPassword (b.find? p) := by
  induction h with
  | nil => rfl
  | @cons x y xs ys hxy htail ih =>
    by_cases hx : p x
    · have hy : p y := by rw [← hp x y hxy]; exact hx
      rw [List.find?_cons_of_pos _ hx, List.find?_cons_of_pos _ hy]
      simp [hxy]
    · have hy : ¬ p y := by rw [← hp x y hxy]; exact hx
      rw [List.find?_cons_of_neg _ hx, List.find?_cons_of_neg _ hy]
      exact ih

/-- filter preserves password-equivalence for any predicate that does not
inspect the password. -/
theorem pwEquiv_filter (p : User → Bool)
    (hp : ∀ u v, stripPassword u = stripPassword v → p u = p v)
    {a b : List User} (h : pwEquiv a b) :
    pwEquiv (a.filter p) (b.filter p) := by
  induction h with
  | nil => exact List.Forall₂.nil
  | @cons x y xs ys hxy htail ih =>
    by_cases hx : p x
    · have hy : p y := by rw [← hp x y hxy]; exact hx
      rw [List.filter_cons_of_pos hx, List.filter_cons_of_pos hy]
      exact List.Forall₂.cons hxy ih
    · have hy : ¬ p y := by rw [← hp x y hxy]; exact hx
      rw [List.filter_cons_of_neg hx, List.filter_cons_of_neg hy]
      exact ih

/-- map agrees across password-equivalent lists for any function that
factors through password stripping. -/
theorem map_strip_factor {α : Type} (f : User → α)
    (hf : ∀ u v, stripPassword u = stripPassword v → f u = f v)
    {a b : List User} (h : pwEquiv a b) :
    a.map f = b.map f := by
  induction h with
  | nil => rfl
  | @cons x y xs ys hxy htail ih =>
    simp only [List.map_cons, ih]
    rw [hf x y hxy]

/-- C10: none of the success bodies of register, login, GET /api/auth/me,
GET /api/users, GET /api/users/role/:role and GET /api/teachers depends on
any stored password hash: across two stores that agree on everything but
passwords, register produces the very same response, two successful logins
carry the same token and user body, and the remaining route bodies are
identical. -/
theorem C10_password_noninterference
    (s1 s2 : UserStore) (profiles : List TeacherProfile)
    (hash : String → String) (vrfy : String → String → Bool)
    (now : DateT) (req : InsertUser) (uname pw uid : String) (role : Role)
    (hEquiv : pwEquiv s1.users s2.users) (hId : s1.nextId = s2.nextId) :
    (register s1 req hash now).1 = (register s2 req hash now).1 ∧
    (∀ t1 b1 t2 b2,
      login s1.users vrfy uname pw = AuthResponse.ok 200 t1 b1 →
      login s2.users vrfy uname pw = AuthResponse.ok 200 t2 b2 →
      t1 = t2 ∧ b1 = b2) ∧
    meBody s1.users uid = meBody s2.users uid ∧
    usersBody s1.users = usersBody s2.users ∧
    usersByRoleBody s1.users role = usersByRoleBody s2.users role ∧
    teachersBody s1.users profiles = teachersBody s2.users profiles := by
  have hpEmail : ∀ u v, stripPassword u = stripPassword v →
      (u.email == req.email) = (v.email == req.email) := by
    intro u v h
    have he : u.email = v.email := congrArg PublicUser.email h
    rw [he]
  have hpUname : ∀ (n : String) u v, stripPassword u = stripPassword v →
      (u.username == n) = (v.username == n) := by
    intro n u v h
    have hu : u.username = v.username := congrArg PublicUser.username h
    rw [hu]
  have hpId : ∀ u v, stripPassword u = stripPassword v →
      (u.id == uid) = (v.id == uid) := by
    intro u v h
    have hi : u.id = v.id := congrArg PublicUser.id h
    rw [hi]
  have hpRole : ∀ u v, stripPassword u = stripPassword v →
      (u.role == role) = (v.role == role) := by
    intro u v h
    have hr : u.role = v.role := congrArg PublicUser.role h
    rw [hr]
  have hpTeacher : ∀ u v, stripPassword u = stripPassword v →
      (u.role == Role.teacher) = (v.role == Role.teacher) := by
    intro u v h
    have hr : u.role = v.role := congrArg PublicUser.role h
    rw [hr]
  refine ⟨?_, ?_, ?_, ?_, ?_, ?_⟩
  · unfold register getUserByEmail getUserByUsername
    have hem := find?_map_strip _ hpEmail hEquiv
    cases he1 : s1.users.find? (fun u => u.email == req.email) with
    | some u1 =>
      rw [he1] at hem
      cases he2 : s2.users.find? (fun u => u.email == req.email) with
      | some u2 => simp
      | none => rw [he2] at hem; simp at hem
    | none =>
      rw [he1] at hem
      cases he2 : s2.users.find? (fun u => u.email == req.email) with
      | some u2 => rw [he2] at hem; simp at hem
      | none =>
        have hun := find?_map_strip _ (hpUname req.username) hEquiv
        cases hu1 : s1.users.find? (fun u => u.username == req.username) with
        | some u1 =>
          rw [hu1] at hun
          cases hu2 : s2.users.find? (fun u => u.username == req.username) with
          | some u2 => simp
          | none => rw [hu2] at hun; simp at hun
        | none =>
          rw [hu1] at hun
          cases hu2 : s2.users.find? (fun u => u.username == req.username) with
          | some u2 => rw [hu2] at hun; simp at hun
          | none => simp [createUser, hId]
  · intro t1 b1 t2 b2 h1 h2
    unfold login getUserByUsername at h1 h2
    have hun := find?_map_strip _ (hpUname uname) hEquiv
    cases hu1 : s1.users.find? (fun u => u.username == uname) with
    | none => rw [hu1] at h1; simp at h1
    | some u1 =>
      cases hu2 : s2.users.find? (fun u => u.username == uname) with
      | none => rw [hu2] at h2; simp at h2
      | some u2 =>
        rw [hu1, hu2] at hun
        simp only [Option.map_some', Option.some.injEq] at hun
        rw [hu1] at h1
        rw [hu2] at h2
        by_cases hv1 : vrfy pw u1.password
        · by_cases hv2 : vrfy pw u2.password
          · simp only [hv1, if_true] at h1
            simp only [hv2, if_true] at h2
            cases h1
            cases h2
            exact ⟨mkToken_congr hun, hun⟩
          · simp [hv2] at h2
        · simp [hv1] at h1
  · unfold meBody getUser
    exact find?_map_strip _ hpId hEquiv
  · unfold usersBody
    exact map_strip_factor _ (fun u v h => h) hEquiv
  · unfold usersByRoleBody getUsersByRole
    exact map_strip_factor _ (fun u v h => h)
      (pwEquiv_filter _ hpRole hEquiv)
  · unfold teachersBody getUsersByRole
    apply map_strip_factor _ ?_ (pwEquiv_filter _ hpTeacher hEquiv)
    intro u v h
    have hi : u.id = v.id := congrArg PublicUser.id h
    rw [h, hi]

/-- C10 witness: two concrete stores differing only in Alice's password
hash yield identical register responses and identical bodies for the user
listing routes. -/
theorem C10_password_noninterference_witness :
    (register storeW1 reqBob hashInert nowMay).1 =
      (register storeW2 reqBob hashInert nowMay).1 ∧
    meBody storeW1.users "u1" = meBody storeW2.users "u1" ∧
    usersBody storeW1.users = usersBody storeW2.users ∧
    usersByRoleBody storeW1.users Role.teacher =
      usersByRoleBody storeW2.users Role.teacher ∧
    teachersBody storeW1.users [profTina] =
      teachersBody storeW2.users [profTina] := by
  have hEquiv : pwEquiv storeW1.users storeW2.users :=
    List.Forall₂.cons (by decide)
      (List.Forall₂.cons (by decide) List.Forall₂.nil)
  have h := C10_password_noninterference storeW1 storeW2 [profTina] hashInert
    vrfyNever nowMay reqBob "alice" "pw" "u1" Role.teacher hEquiv rfl
  exact ⟨h.1, h.2.2.1, h.2.2.2.1, h.2.2.2.2.1, h.2.2.2.2.2⟩

end SchoolHub
